import Mathlib

/-!
Verification development for the per-user WhatsApp session manager
(`whatsappService`: `hasSessionFiles`, `restoreWhatsAppSession`,
`initializeWhatsApp`, `getQRCode`, `getConnectionStatus`, `getClient`,
`disconnectWhatsApp`, `getChats`, `getChatMessages`, `sendMessage`,
`getChatCount`).

The JavaScript service is shallowly embedded as follows:

* The four module-level maps (`activeClients`, `qrCodes`, `connectionStatus`,
  `initializingClients`) are modelled by their per-user projections gathered
  in a snapshot record (`UserSnap`): the claims are all per-user properties
  and the code never reads another user's entries.
* The underlying transport (`whatsapp-web.js`) is opaque; each call into it
  (`client.initialize()`, `chat.getContact()`, `chat.fetchMessages(...)` and
  so on) is modelled by an oracle input of type `Except JsError _` carrying
  the value that the corresponding promise settles with.
* `async`/`await` control flow is modelled at await granularity: a function
  body between two suspension points runs atomically; interleavings are
  explicit schedule parameters where a claim is about concurrency.
* JavaScript truthiness on optional strings (`a || b`, `if (x)`) is modelled
  by `Option String` with the empty string counted as falsy (`jsOrS`).
* Timers (`setTimeout`) are instrumented as accumulated wait counters;
  readiness polling counts 500ms ticks.
-/

/-! ## JavaScript string primitives

`String.prototype.includes` and `String.prototype.trim`, implemented by
structural recursion on the character list so that concrete instances reduce
in the kernel. -/

/-- `needle` occurs at the head of `hay` (chars). Empty needle matches. -/
def startsWithChars : List Char → List Char → Bool
  | [], _ => true
  | _ :: _, [] => false
  | a :: as, b :: bs => a = b && startsWithChars as bs

/-- `needle` occurs contiguously anywhere in `hay` (chars). -/
def containsChars (needle : List Char) : List Char → Bool
  | [] => startsWithChars needle []
  | hay@(_ :: rest) => startsWithChars needle hay || containsChars needle rest

/-- JS `hay.includes(needle)`. -/
def strIncludes (hay needle : String) : Bool :=
  containsChars needle.data hay.data

/-- Whitespace characters trimmed by JS `String.prototype.trim` (the
common ASCII ones; the source only ever trims user-visible message text). -/
def isWs (c : Char) : Bool :=
  c = ' ' || c = '\t' || c = '\n' || c = '\r'

/-- Drop leading whitespace from a character list. -/
def dropLeadingWs : List Char → List Char
  | [] => []
  | c :: rest => if isWs c then dropLeadingWs rest else c :: rest

/-- JS `s.trim()`. -/
def strTrim (s : String) : String :=
  ⟨(dropLeadingWs (dropLeadingWs s.data.reverse).reverse)⟩

/-- JS `a || b` for an optional string `a` (absent and `""` are falsy). -/
def jsOrS (a : Option String) (b : String) : String :=
  match a with
  | some s => if s = "" then b else s
  | none => b

/-- JS truthiness of an optional string. -/
def jsTruthy (a : Option String) : Bool :=
  match a with
  | some s => s ≠ ""
  | none => false

/-! ## Session lifecycle statuses and events

`connectionStatus` values are the exact strings stored by the service
(`'initializing' | 'qr_ready' | 'authenticated' | 'connected' |
'disconnected' | 'auth_failure' | 'restoring'`). -/

inductive WaStatus where
  | initializing
  | qr_ready
  | authenticated
  | connected
  | disconnected
  | auth_failure
  | restoring
deriving DecidableEq

/-- Lifecycle events delivered by the transport to the handlers that
`initializeWhatsApp` registers (part_001 lines 256-292).  `qr genOk payload`
carries whether `qrcode.toDataURL` succeeded (on failure the handler's
`catch` only logs and no state changes, lines 264-266). -/
inductive WaEvent where
  | qr (genOk : Bool) (payload : String)
  | ready
  | authenticated
  | auth_failure
  | disconnected
deriving DecidableEq

/-- Per-user projection of the three registry maps that the
`initializeWhatsApp` lifecycle handlers touch: `activeClients` membership,
the `qrCodes` entry and the `connectionStatus` entry. -/
structure LifeState where
  hasClient : Bool
  qr : Option String
  status : WaStatus
deriving DecidableEq

/-- One lifecycle event applied to the per-user state, exactly as the
handlers registered in `initializeWhatsApp` mutate the maps:

* `qr` (lines 257-267): on successful data-URL generation store the payload
  and set status `qr_ready`;
* `ready` (lines 269-273): status `connected`, delete the QR entry;
* `authenticated` (lines 275-278): status `authenticated` only — the QR
  entry is NOT deleted;
* `auth_failure` (lines 280-285): status `auth_failure`, drop the client and
  the QR entry;
* `disconnected` (lines 287-292): status `disconnected`, drop the client and
  the QR entry. -/
def applyEvent (st : LifeState) : WaEvent → LifeState
  | .qr true payload => { st with qr := some payload, status := .qr_ready }
  | .qr false _ => st
  | .ready => { st with status := .connected, qr := none }
  | .authenticated => { st with status := .authenticated }
  | .auth_failure => { hasClient := false, qr := none, status := .auth_failure }
  | .disconnected => { hasClient := false, qr := none, status := .disconnected }

/-- State of a freshly initialized session just after `initializeWhatsApp`
stores the client and sets status `initializing` (lines 253-254), before any
lifecycle event. -/
def initLifeState : LifeState :=
  { hasClient := true, qr := none, status := .initializing }

/-- The per-user state after a sequence of lifecycle events has been
delivered to the session created by `initializeWhatsApp`. -/
def runEvents (evs : List WaEvent) : LifeState :=
  evs.foldl applyEvent initLifeState

/-! ## Operation results and per-user registry snapshots -/

/-- A JavaScript `Error` as the service observes it: only its `message`
string is ever inspected (`sendError.message.includes(...)`). -/
structure JsError where
  message : String
deriving DecidableEq

deriving instance DecidableEq for Except

/-- The structured result objects returned by `initializeWhatsApp` /
`restoreWhatsAppSession` (`{success, connected, hasSession?, message}`;
`hasSession` is only present on restore results). -/
structure OpResult where
  success : Bool
  connected : Bool
  hasSession : Option Bool
  message : String
deriving DecidableEq

/-- part_001 lines 202-206 and 54-59 (field `hasSession` per line 57). -/
def alreadyConnectedRes (hasSess : Option Bool) : OpResult :=
  { success := true, connected := true, hasSession := hasSess,
    message := "WhatsApp already connected" }

/-- part_001 lines 211-215. -/
def alreadyInitializingRes : OpResult :=
  { success := true, connected := false, hasSession := none,
    message := "WhatsApp client is already initializing" }

/-- part_001 lines 297-301: returned by a fresh, successful `initialize`. -/
def initOkRes : OpResult :=
  { success := true, connected := false, hasSession := none,
    message := "WhatsApp client initialized. Waiting for QR code..." }

/-- part_001 lines 66-71: restore's mid-handshake wait observed readiness. -/
def restoreMidConnectedRes : OpResult :=
  { success := true, connected := true, hasSession := some true,
    message := "WhatsApp session restored" }

/-- part_001 lines 87-92: restore found no on-disk credentials. -/
def noSessionRes : OpResult :=
  { success := true, connected := false, hasSession := some false,
    message := "No existing session found" }

/-- part_001 lines 158-163: restore connected within its bounded wait. -/
def restoredOkRes : OpResult :=
  { success := true, connected := true, hasSession := some true,
    message := "WhatsApp session restored successfully" }

/-- part_001 lines 166-171: restore created a client but it was not yet
connected when the bounded wait expired. -/
def restoredPendingRes : OpResult :=
  { success := true, connected := false, hasSession := some true,
    message := "Session files found but not connected yet" }

/-- Per-user snapshot of the four module-level maps at a given instant:
`activeClients` membership plus the client's `info` truthiness, the
`qrCodes` entry, the `connectionStatus` entry, and the `initializingClients`
entry.  A stored pending operation is modelled by the outcome its promise
eventually settles with (`.ok` = fulfilled, `.error` = rejected). -/
structure UserSnap where
  active : Bool
  activeReady : Bool
  qr : Option String
  status : Option WaStatus
  pendingOp : Option (Except JsError OpResult)
deriving DecidableEq

/-- The empty registry state for a user: no client, no QR, no status, no
pending operation. -/
def emptySnap : UserSnap :=
  { active := false, activeReady := false, qr := none, status := none,
    pendingOp := none }

/-- Instrumented outcome of one coordinator call: the settled result, how
many `new Client(...)` constructions it performed, the total milliseconds of
`setTimeout` waiting on its path, and the per-user registry snapshot after
it settled. -/
structure RunOut where
  result : Except JsError OpResult
  created : Nat
  waitedMs : Nat
  final : UserSnap
deriving DecidableEq

/-! ## Restoration Coordinator (`restoreWhatsAppSession`, part_001 48-189)

Oracle inputs: `readyAfterWait` is `client.info` truthiness after the
2-second mid-handshake wait (line 64); `hasFiles` is the result of
`hasSessionFiles(userId)` (an existence-only check of the user's
`.wwebjs_auth` directory, lines 17-41, modelled as an opaque boolean since
it only reads the filesystem); `connectRes` is the settlement of
`client.initialize()` for a freshly created client (line 150);
`newReadyAfterWait` is that client's `info` truthiness after the 2-second
post-connect wait (line 153).  The transport delivers no lifecycle events
during the call in this model (the claims settled against it do not
involve event interleavings). -/

structure RestoreEnv where
  snap : UserSnap
  readyAfterWait : Bool
  hasFiles : Bool
  connectRes : Except JsError Unit
  newReadyAfterWait : Bool
deriving DecidableEq

/-- Lines 77-183: the part of `restoreWhatsAppSession` after the
existing-client checks.  `waited` carries the milliseconds already spent in
the mid-handshake wait. -/
def restoreTail (env : RestoreEnv) (waited : Nat) : RunOut :=
  match env.snap.pendingOp with
  | some outcome =>
      -- lines 77-81: await the coalesced operation and return its result;
      -- the operation that stored the entry clears it in its own finally
      -- block (line 178), so the entry is gone once the promise settles.
      { result := outcome, created := 0, waitedMs := waited,
        final := { env.snap with pendingOp := none } }
  | none =>
      if ¬ env.hasFiles then
        -- lines 84-93: no on-disk credentials, no state mutated.
        { result := .ok noSessionRes, created := 0, waitedMs := waited,
          final := env.snap }
      else
        -- lines 96-183: creation IIFE.  It stores the client (line 122),
        -- sets status 'restoring' (line 123), registers handlers, starts
        -- the connect sequence; the pending entry set at line 182 is
        -- cleared by the finally at line 178 before the call settles.
        match env.connectRes with
        | .error e =>
            -- lines 172-179: drop client and status, clear pending,
            -- propagate the rejection (outer catch lines 184-188 deletes
            -- the already-absent pending entry again and rethrows).
            { result := .error e, created := 1, waitedMs := waited,
              final := { active := false, activeReady := false,
                         qr := env.snap.qr, status := none,
                         pendingOp := none } }
        | .ok () =>
            if env.newReadyAfterWait then
              -- lines 156-163: status forced to 'connected'.
              { result := .ok restoredOkRes, created := 1,
                waitedMs := waited + 2000,
                final := { active := true, activeReady := true,
                           qr := env.snap.qr, status := some .connected,
                           pendingOp := none } }
            else
              -- lines 166-171: client stored, status left 'restoring'.
              { result := .ok restoredPendingRes, created := 1,
                waitedMs := waited + 2000,
                final := { active := true, activeReady := false,
                           qr := env.snap.qr, status := some .restoring,
                           pendingOp := none } }

/-- `restoreWhatsAppSession(userId)`, part_001 lines 48-189. -/
def restoreWhatsAppSession (env : RestoreEnv) : RunOut :=
  if env.snap.active then
    if env.snap.activeReady then
      -- lines 51-60: already connected, nothing mutated.
      { result := .ok (alreadyConnectedRes (some true)), created := 0,
        waitedMs := 0, final := env.snap }
    else if env.snap.status = some .restoring
        ∨ env.snap.status = some .initializing then
      -- lines 62-73: wait 2 seconds and re-check `client.info`; on
      -- success return without touching the registry (status is NOT
      -- updated on this path), otherwise fall through.
      if env.readyAfterWait then
        { result := .ok restoreMidConnectedRes, created := 0,
          waitedMs := 2000, final := env.snap }
      else
        restoreTail env 2000
    else
      restoreTail env 0
  else
    restoreTail env 0

/-! ## Initialization Coordinator (`initializeWhatsApp`, part_001 196-320) -/

/-- Lines 198-217: the synchronous existing-client checks at the top of
`initializeWhatsApp`.  `some r` means the call returns `r` immediately;
`none` means it falls through to the pending-operation check. -/
def initEarlyCheck (s : UserSnap) : Option OpResult :=
  if s.active then
    if s.activeReady then
      some (alreadyConnectedRes none)
    else if s.status = some .initializing ∨ s.status = some .restoring
        ∨ s.status = some .qr_ready then
      some alreadyInitializingRes
    else
      none
  else
    none

/-- Oracle inputs for one `initializeWhatsApp` call: the registry snapshot
at entry, the settlement of `client.initialize()` (line 295), and the
lifecycle events the transport delivers while the coordinator is suspended
awaiting `client.initialize()` (their handlers were registered at lines
256-292, before the connect sequence was started). -/
structure InitEnv where
  snap : UserSnap
  connectRes : Except JsError Unit
  events : List WaEvent
deriving DecidableEq

/-- `initializeWhatsApp(userId)`, part_001 lines 196-320.

On the fresh-creation path the IIFE (lines 227-311): creates the client and
stores it with status `initializing` (lines 234-254), registers the five
lifecycle handlers (lines 256-292), awaits `client.initialize()` (line 295)
— during which `env.events` are delivered to the handlers — and returns the
fixed not-connected result (lines 297-301) regardless of how far the
handshake progressed.  On rejection the catch (lines 302-307) drops the
client, QR and status entries and propagates; the finally (lines 308-310)
clears the pending entry on both paths.  `client.info` becomes truthy when
the transport reaches readiness, i.e. exactly when a `ready` event has put
the status at `connected`. -/
def initializeWhatsApp (env : InitEnv) : RunOut :=
  match initEarlyCheck env.snap with
  | some r =>
      { result := .ok r, created := 0, waitedMs := 0, final := env.snap }
  | none =>
      match env.snap.pendingOp with
      | some outcome =>
          -- lines 220-224: await the coalesced operation.
          { result := outcome, created := 0, waitedMs := 0,
            final := { env.snap with pendingOp := none } }
      | none =>
          match env.connectRes with
          | .error e =>
              { result := .error e, created := 1, waitedMs := 0,
                final := { active := false, activeReady := false, qr := none,
                           status := none, pendingOp := none } }
          | .ok () =>
              { result := .ok initOkRes, created := 1, waitedMs := 0,
                final :=
                  { active := (runEvents env.events).hasClient,
                    activeReady :=
                      (runEvents env.events).hasClient
                        && decide ((runEvents env.events).status = .connected),
                    qr := (runEvents env.events).qr,
                    status := some (runEvents env.events).status,
                    pendingOp := none } }

/-! ## Two rapid `initializeWhatsApp` calls for one user

JavaScript async semantics fix the atomic segments of a fresh
`initializeWhatsApp(u)` call:

1. the outer body runs the checks of lines 198-224, invokes the IIFE —
   which runs synchronously up to its first suspension, `await fs.mkdir`
   (line 231), i.e. before the client is constructed — then stores the
   pending entry (line 313) and suspends at `await initPromise` (line 314).
   So the pending entry is visible before the call's first suspension;
2. when `fs.mkdir` settles, the IIFE constructs and stores the client and
   sets status `initializing` (lines 234-254), registers handlers and
   suspends at `await client.initialize()` (line 295);
3. when `client.initialize()` settles, the IIFE produces its result and the
   finally clears the pending entry.

A second call for the same user can therefore start (its own synchronous
prefix runs atomically) either while the first is suspended at `fs.mkdir`
or while it is suspended at `client.initialize()` — both are strictly
before the first call completes.  The transport is quiescent (no lifecycle
events) in this scenario. -/

inductive Arrival where
  | atMkdirWait
  | atConnectWait
deriving DecidableEq

/-- Registry snapshot exposed to a second caller while the first fresh
`initializeWhatsApp` is suspended at `fs.mkdir`: only the pending entry is
set (eventually settling with `r1`). -/
def snapDuringMkdir (r1 : Except JsError OpResult) : UserSnap :=
  { active := false, activeReady := false, qr := none, status := none,
    pendingOp := some r1 }

/-- Registry snapshot exposed to a second caller while the first fresh
`initializeWhatsApp` is suspended at `client.initialize()`: the client is
stored and not ready, status is `initializing`, the pending entry is set. -/
def snapDuringConnect (r1 : Except JsError OpResult) : UserSnap :=
  { active := true, activeReady := false, qr := none,
    status := some .initializing, pendingOp := some r1 }

/-- Interleaved execution of two `initializeWhatsApp(u)` calls for the same
user, the first starting on an empty registry, the second arriving at
schedule point `a` (before the first completes).  Returns (first caller's
settled result, second caller's settled result, total clients created by
both calls).  The second call's behaviour is computed by the embedded
`initializeWhatsApp` on the snapshot it observes. -/
def runTwoInit (a : Arrival) (connectRes : Except JsError Unit) :
    Except JsError OpResult × Except JsError OpResult × Nat :=
  let r1 : Except JsError OpResult :=
    (initializeWhatsApp
      { snap := emptySnap, connectRes := connectRes, events := [] }).result
  let s : UserSnap :=
    match a with
    | .atMkdirWait => snapDuringMkdir r1
    | .atConnectWait => snapDuringConnect r1
  let second : RunOut :=
    initializeWhatsApp { snap := s, connectRes := connectRes, events := [] }
  (r1, second.result, 1 + second.created)

/-! ## Pending-operation marker lifecycle (single-flight bookkeeping)

The sequence of `initializingClients.set` / `initializingClients.delete`
operations that one coordinator execution performs on its user's entry, in
execution order, read off the source. -/

inductive PendingMapOp where
  | store
  | clear
deriving DecidableEq

/-- `initializeWhatsApp` executions that store a pending operation (the
fresh-creation path): `set` at line 313; the IIFE's finally `delete` at
line 309 runs on both fulfilment and rejection; on rejection the outer
catch's `delete` at line 317 runs as well (after the finally, since the
rejection propagates through `await initPromise`). -/
def initPendingMapOps (connectRes : Except JsError Unit) : List PendingMapOp :=
  match connectRes with
  | .ok () => [.store, .clear]
  | .error _ => [.store, .clear, .clear]

/-- `restoreWhatsAppSession` executions that store a pending operation (the
creation path): `set` at line 182, finally `delete` at line 178, and on
rejection the outer catch's `delete` at line 186. -/
def restorePendingMapOps (connectRes : Except JsError Unit) :
    List PendingMapOp :=
  match connectRes with
  | .ok () => [.store, .clear]
  | .error _ => [.store, .clear, .clear]

/-- Replay a sequence of map operations on the (initially absent) entry:
returns (number of effective clears, i.e. present-to-absent transitions;
whether the entry is present afterwards). -/
def replayPendingOps : List PendingMapOp → Bool → Nat × Bool
  | [], present => (0, present)
  | .store :: rest, _ => replayPendingOps rest true
  | .clear :: rest, present =>
      let t := replayPendingOps rest false
      (t.1 + (if present then 1 else 0), t.2)

/-! ## `disconnectWhatsApp` (part_001 lines 354-385) -/

/-- `try { await p } catch (err) { console.error(...) }`: the rejection is
swallowed (lines 361-365 around `client.logout()`, lines 366-370 around
`client.destroy()`). -/
def swallowJsError (r : Except JsError Unit) : Except JsError Unit :=
  match r with
  | .ok () => .ok ()
  | .error _ => .ok ()

/-- The per-user registry state after `disconnectWhatsApp`'s cleanup
deletes: all four entries removed. -/
def clearedSnap : UserSnap :=
  { active := false, activeReady := false, qr := none, status := none,
    pendingOp := none }

/-- `disconnectWhatsApp(userId)`: delete the pending entry (line 357); if a
client is stored, `logout` then `destroy`, each in its own
rejection-swallowing try/catch; then delete the client, QR and status
entries (lines 372-374).  The outer catch (lines 376-384) re-runs all four
deletes and rethrows — it is mirrored here even though no rejection can
escape the swallowed awaits. -/
def disconnectWhatsApp (s : UserSnap)
    (logoutRes destroyRes : Except JsError Unit) :
    Except JsError Unit × UserSnap :=
  let body : Except JsError Unit :=
    if s.active then
      match swallowJsError logoutRes with
      | .error e => .error e
      | .ok () =>
          match swallowJsError destroyRes with
          | .error e => .error e
          | .ok () => .ok ()
    else
      .ok ()
  match body with
  | .ok () => (.ok (), clearedSnap)
  | .error e => (.error e, clearedSnap)

/-! ## Conversation/Message Gateway: readiness polling

`client.info` truthiness is modelled as a function of elapsed 500ms polling
ticks.  The loop (part_001 lines 419-423, repeated at 624-628 and 773-777)
is

    let attempts = 0;
    while (!client.info && attempts < 20) { await sleep(500); attempts++; }

`pollFuel` mirrors it with a structural fuel counter; the guard
`attempts < 20` bounds the iteration count by `20 - attempts`, so fuel `20`
from `attempts = 0` replays the loop exactly.  The returned value is the
final `attempts`, which also counts the 500ms sleeps performed. -/

def pollFuel (info : Nat → Bool) : Nat → Nat → Nat
  | attempts, 0 => attempts
  | attempts, fuel + 1 =>
      if attempts < 20 then
        if info attempts then attempts else pollFuel info (attempts + 1) fuel
      else attempts

/-- The readiness guard shared by `getChats`, `getChatMessages` and
`getChatCount` (lines 417-428, 622-633, 772-782): skip entirely if already
ready, otherwise run the polling loop and re-check.  Returns (number of
500ms sleeps performed, whether `client.info` was truthy at the final
check). -/
def waitForReady (info : Nat → Bool) : Nat × Bool :=
  if info 0 then (0, true)
  else
    let a := pollFuel info 0 20
    (a, info a)

/-- The distinct errors thrown by the Gateway operations, each carrying the
exact source message: `notInitialized` = line 413/618/768, `notReadyLong` =
lines 426/631, `notReadyShort` = line 780, `notConnected` = line 674,
`chatNotFound` = line 681, `js e` = a propagated transport rejection. -/
inductive GwError where
  | notInitialized
  | notReadyLong
  | notReadyShort
  | notConnected
  | chatNotFound (chatId : String)
  | js (e : JsError)
deriving DecidableEq

/-- The human-readable message of each Gateway error, as in the source. -/
def GwError.text : GwError → String
  | .notInitialized => "WhatsApp client not initialized"
  | .notReadyLong => "WhatsApp client not ready. Please wait a moment and try again."
  | .notReadyShort => "WhatsApp client not ready"
  | .notConnected => "WhatsApp client not connected"
  | .chatNotFound c => "Chat " ++ c ++ " not found"
  | .js e => e.message

/-! ## Conversation listing (`getChats`, part_001 lines 409-606) -/

/-- A raw message as returned by the transport (`whatsapp-web.js`
`Message`): the fields the service reads.  Absent/empty string fields are
both JS-falsy. -/
structure WaMsg where
  idSer : String
  body : Option String
  caption : Option String
  timestamp : Nat
  fromMe : Bool
  mtype : String
  ack : Nat
  hasMedia : Bool
deriving DecidableEq

/-- A raw conversation as returned by the transport (`Chat`): the fields
the service reads (`chat.id._serialized`, `chat.id.user`, `chat.name`,
`chat.unreadCount`, `chat.isGroup`, `chat.isReadOnly`). -/
structure WaChat where
  idSer : String
  idUser : Option String
  name : Option String
  unreadCount : Option Nat
  isGroup : Option Bool
  isReadOnly : Option Bool
deriving DecidableEq

/-- A resolved contact (`chat.getContact()` result): the fields read at
lines 458-459. -/
structure WaContact where
  pushname : Option String
  name : Option String
  number : Option String
deriving DecidableEq

/-- A downloaded media payload (`lastMessage.downloadMedia()` result):
`data` is the base64 string, `mimetype` its MIME type.  `media && media.data`
truthiness is folded into the oracle below. -/
structure WaMedia where
  dataB64 : String
  mimetype : String
deriving DecidableEq

/-- The per-conversation transport sub-fetches of `getChats`, each an
oracle settlement: `contact` = `chat.getContact()` raced against its 5s
timeout (lines 451-456); `profilePic` = `contact.getProfilePicUrl()` raced
against 3s (lines 462-467, `.ok none` = resolved falsy); `lastMsgs` =
`chat.fetchMessages({limit: 1})` raced against 5s (lines 482-488);
`media` = `lastMessage.downloadMedia()` raced against 3s (lines 523-528,
`.ok none` = resolved with falsy media or falsy data). -/
structure ChatFetchEnv where
  contact : Except Unit WaContact
  profilePic : Except Unit (Option String)
  lastMsgs : Except Unit (List WaMsg)
  media : Except Unit (Option WaMedia)
deriving DecidableEq

/-- The locale/time environment: `nowMs` is `Date.now()` in milliseconds;
the three formatters stand for the `toLocaleTimeString` /
`toLocaleDateString` calls (external runtime behaviour), applied to the
message's epoch-second timestamp. -/
structure TimeEnv where
  nowMs : Nat
  fmtTimeOfDay : Nat → String
  fmtWeekday : Nat → String
  fmtMonthDay : Nat → String

/-- The UI-shaped conversation summary built by `getChats`
(lines 558-570). -/
structure ChatEntry where
  id : String
  name : String
  phoneNumber : String
  avatar : Option String
  lastMessage : String
  lastMessageType : Option String
  lastMessageImage : Option String
  timestamp : String
  unread : Nat
  isGroup : Bool
  isReadOnly : Bool
deriving DecidableEq

/-- Timestamp rendering, lines 494-510: `diffDays` is the ceiling of the
absolute now-to-message distance in days (so it is `0` only when the two
instants coincide exactly). -/
def fmtChatTimestamp (te : TimeEnv) (tsSec : Nat) : String :=
  let diffMs : Nat := ((te.nowMs : Int) - (tsSec : Int) * 1000).natAbs
  let diffDays : Nat := (diffMs + 86399999) / 86400000
  if diffDays = 0 then te.fmtTimeOfDay tsSec
  else if diffDays = 1 then "Yesterday"
  else if diffDays < 7 then te.fmtWeekday tsSec
  else te.fmtMonthDay tsSec

/-- One conversation formatted for the UI, part_001 lines 442-570.  Each
sub-fetch failure is caught where the source catches it:

* contact failure (catch at lines 472-476): name falls back to
  `chat.name || chat.id.user || 'Unknown'`, phone to `chat.id.user || ''`,
  and the avatar fetch is skipped (stays `null`);
* avatar failure (catch at lines 468-471): `avatar = null` only;
* last-message fetch failure (catch at lines 489-491): `lastMessage = null`,
  so text, type, image and timestamp degrade to their empty defaults;
* image download failure (catch at lines 540-543): no inline preview. -/
def formatChat (te : TimeEnv) (chat : WaChat) (f : ChatFetchEnv) : ChatEntry :=
  let contactName : String :=
    match f.contact with
    | .ok contact =>
        jsOrS contact.pushname (jsOrS contact.name (jsOrS contact.number
          (jsOrS chat.name "Unknown")))
    | .error _ => jsOrS chat.name (jsOrS chat.idUser "Unknown")
  let phoneNumber : String :=
    match f.contact with
    | .ok contact => jsOrS contact.number (jsOrS chat.idUser "")
    | .error _ => jsOrS chat.idUser ""
  let avatar : Option String :=
    match f.contact with
    | .ok _ =>
        match f.profilePic with
        | .ok u => u
        | .error _ => none
    | .error _ => none
  let lastMessage : Option WaMsg :=
    match f.lastMsgs with
    | .ok msgs => msgs.head?
    | .error _ => none
  let timestamp : String :=
    match lastMessage with
    | none => ""
    | some m => fmtChatTimestamp te m.timestamp
  let lastMessageImage : Option String :=
    match lastMessage with
    | some m =>
        if m.mtype = "image" && m.hasMedia then
          match f.media with
          | .ok (some media) =>
              if media.dataB64.length < 102400 then
                some ("data:" ++ media.mimetype ++ ";base64," ++ media.dataB64)
              else none
          | .ok none => none
          | .error _ => none
        else none
    | none => none
  let lastMessageText : String :=
    match lastMessage with
    | none => ""
    | some m =>
        if m.mtype = "image" then jsOrS m.caption "📷 Image"
        else if m.mtype = "video" then jsOrS m.caption "🎥 Video"
        else if m.mtype = "audio" then "🎵 Audio"
        else if m.mtype = "document" then "📄 " ++ jsOrS m.body "Document"
        else if m.mtype = "sticker" then "🎨 Sticker"
        else jsOrS m.body ("[" ++ m.mtype ++ "]")
  { id := chat.idSer,
    name := contactName,
    phoneNumber := phoneNumber,
    avatar := avatar,
    lastMessage := lastMessageText,
    lastMessageType := lastMessage.map (fun m => m.mtype),
    lastMessageImage := lastMessageImage,
    timestamp := timestamp,
    unread := chat.unreadCount.getD 0,
    isGroup := chat.isGroup.getD false,
    isReadOnly := chat.isReadOnly.getD false }

/-- The entry produced by the outer per-conversation catch (lines 571-587):
basic chat info only, with `unread` forced to `0`. -/
def minimalChatEntry (chat : WaChat) : ChatEntry :=
  { id := chat.idSer,
    name := jsOrS chat.name (jsOrS chat.idUser "Unknown"),
    phoneNumber := jsOrS chat.idUser "",
    avatar := none,
    lastMessage := "",
    lastMessageType := none,
    lastMessageImage := none,
    timestamp := "",
    unread := 0,
    isGroup := chat.isGroup.getD false,
    isReadOnly := chat.isReadOnly.getD false }

/-- A live client handle for the Gateway: readiness per polling tick and
the conversation list that `client.getChats()` resolves with. -/
structure GwClient where
  info : Nat → Bool
  chats : List WaChat

/-- Lines 442-588: `chats.map(async (chat) => ...)` under `Promise.all` —
each conversation is formatted independently with its own sub-fetches
(indexed by position). -/
def mappedChatEntries (te : TimeEnv) (chats : List WaChat)
    (fetch : Nat → ChatFetchEnv) : List ChatEntry :=
  chats.enum.map (fun p => formatChat te p.2 (fetch p.1))

/-- Lines 592-597: the comparator returns `0` except that entries with an
empty timestamp sort after entries with one; under the (stable, ES2019)
array sort this is exactly a stable partition. -/
def orderChatEntries (l : List ChatEntry) : List ChatEntry :=
  l.filter (fun e => e.timestamp ≠ "") ++ l.filter (fun e => e.timestamp = "")

/-- `getChats(userId)`, part_001 lines 409-606, with the readiness guard
instrumented: returns (number of 500ms sleeps, outcome). -/
def getChats (client : Option GwClient) (te : TimeEnv)
    (fetch : Nat → ChatFetchEnv) : Nat × Except GwError (List ChatEntry) :=
  match client with
  | none => (0, .error .notInitialized)
  | some cl =>
      let w := waitForReady cl.info
      if ¬ w.2 then (w.1, .error .notReadyLong)
      else
        (w.1, .ok (orderChatEntries (mappedChatEntries te cl.chats fetch)))

/-- `getChatCount(userId)`, part_001 lines 764-791: same readiness guard
(with the shorter error message), then the full conversation-list fetch and
its length. -/
def getChatCount (client : Option GwClient) : Nat × Except GwError Nat :=
  match client with
  | none => (0, .error .notInitialized)
  | some cl =>
      let w := waitForReady cl.info
      if ¬ w.2 then (w.1, .error .notReadyShort)
      else (w.1, .ok cl.chats.length)

/-! ## Message history (`getChatMessages`, part_001 lines 614-661) -/

/-- The UI-shaped message built at lines 642-654. -/
structure MsgEntry where
  id : String
  text : String
  timestamp : String
  sender : String
  status : Option String
  mtype : String
deriving DecidableEq

/-- Lines 642-654: one raw message mapped to the UI shape. -/
def formatMsg (te : TimeEnv) (m : WaMsg) : MsgEntry :=
  { id := m.idSer,
    text := jsOrS m.body ("[" ++ m.mtype ++ "]"),
    timestamp := te.fmtTimeOfDay m.timestamp,
    sender := if m.fromMe then "me" else "them",
    status :=
      if m.fromMe then
        some (if m.ack = 3 then "read"
              else if m.ack = 2 then "delivered" else "sent")
      else none,
    mtype := m.mtype }

/-- `getChatMessages(userId, chatId)`, lines 614-661, readiness guard
instrumented as in `getChats`.  `chatLookup` is the settlement of
`client.getChatById(chatId)` (its value is only used for the fetch);
`fetchRes` is the settlement of `chat.fetchMessages({limit: 100})`.
Rejections of either propagate unchanged (lines 657-660). -/
def getChatMessages (client : Option GwClient) (te : TimeEnv)
    (chatLookup : Except JsError Unit)
    (fetchRes : Except JsError (List WaMsg)) :
    Nat × Except GwError (List MsgEntry) :=
  match client with
  | none => (0, .error .notInitialized)
  | some cl =>
      let w := waitForReady cl.info
      if ¬ w.2 then (w.1, .error .notReadyLong)
      else
        match chatLookup with
        | .error e => (w.1, .error (.js e))
        | .ok () =>
            match fetchRes with
            | .error e => (w.1, .error (.js e))
            | .ok msgs => (w.1, .ok (msgs.map (formatMsg te)))

/-! ## Sending with the benign-error verification fallback
(`sendMessage`, part_001 lines 670-757) -/

/-- Line 690: the symptomatic string match that classifies a send rejection
as the benign whatsapp-web.js internal error (`sendError.message` truthy
and containing `'markedUnread'` or `'Cannot read properties of
undefined'`). -/
def benignSendError (msg : String) : Bool :=
  msg ≠ "" &&
    (strIncludes msg "markedUnread"
      || strIncludes msg "Cannot read properties of undefined")

/-- Lines 713-723: the body-match test for one candidate message —
`msg.body` truthy, and after trimming both sides, equal or either one a
substring of the other. -/
def msgBodyMatches (message : String) (m : WaMsg) : Bool :=
  match m.body with
  | none => false
  | some b =>
      b ≠ "" &&
        (strTrim b = strTrim message
          || strIncludes (strTrim b) (strTrim message)
          || strIncludes (strTrim message) (strTrim b))

/-- Lines 704-735: the verification loop over the re-fetched recent
messages, in fetch order, breaking at the first hit.  For each message
authored by "me": if it is less than 15 seconds old, take it when its body
matches the sent text, or else when it is less than 5 seconds old.
Timestamps are epoch seconds; `nowMs` is `Date.now()`; the source compares
`(now - msgTime)/1000` (a real number, possibly negative) against 15 and 5,
which is exact on the millisecond integers. -/
def verifyScan (message : String) (nowMs : Nat) : List WaMsg → Option String
  | [] => none
  | m :: rest =>
      if m.fromMe then
        if ((nowMs : Int) - (m.timestamp : Int) * 1000) < 15000 then
          if msgBodyMatches message m then some m.idSer
          else if ((nowMs : Int) - (m.timestamp : Int) * 1000) < 5000 then
            some m.idSer
          else verifyScan message nowMs rest
        else verifyScan message nowMs rest
      else verifyScan message nowMs rest

/-- `sendMessage(userId, chatId, message)`, part_001 lines 670-757.

Oracle inputs: `chatById` is the settlement of `client.getChatById(chatId)`
(`.ok none` = resolved falsy, triggering the line-681 throw); `sendRes` the
settlement of `chat.sendMessage(message)`; `recentFetch` the settlement of
`chat.fetchMessages({limit: 10})` performed after the 2-second settle wait
(lines 694-701); `nowMs` the clock read during verification (also used for
the `temp_${Date.now()}` synthetic id of line 748).  The readiness check at
lines 672-675 is a single `!client || !client.info` test — there is no
polling loop in this operation. -/
def sendMessage (client : Option GwClient)
    (chatById : Except JsError (Option Unit)) (message : String)
    (sendRes : Except JsError String)
    (recentFetch : Except JsError (List WaMsg)) (nowMs : Nat) (chatId : String) :
    Except GwError String :=
  match client with
  | none => .error .notConnected
  | some cl =>
      if ¬ cl.info 0 then .error .notConnected
      else
        match chatById with
        | .error e => .error (.js e)
        | .ok none => .error (.chatNotFound chatId)
        | .ok (some ()) =>
            match sendRes with
            | .ok sentId => .ok sentId
            | .error sendError =>
                if benignSendError sendError.message then
                  match
                    (match recentFetch with
                     | .ok msgs => verifyScan message nowMs msgs
                     | .error _ => none) with
                  | some verifiedId => .ok verifiedId
                  | none => .ok ("temp_" ++ toString nowMs)
                else .error (.js sendError)

/-! ## Concrete instances used in the closed theorems below -/

/-- The QR/status relation preserved by every lifecycle handler of
`initializeWhatsApp`: the artifact is present whenever the status is
`qr_ready`, and its presence implies the status is `qr_ready` or
`authenticated`. -/
def QrStatusInv (st : LifeState) : Prop :=
  (st.status = .qr_ready → st.qr ≠ none)
    ∧ (st.qr ≠ none → st.status = .qr_ready ∨ st.status = .authenticated)

/-- The first-match predicate of the verification loop, read off lines
704-735: an own-authored message less than 15 seconds old that either
matches the sent text by body or is less than 5 seconds old. -/
def qualifiesRecent (message : String) (nowMs : Nat) (m : WaMsg) : Bool :=
  m.fromMe
    && decide ((nowMs : Int) - (m.timestamp : Int) * 1000 < 15000)
    && (msgBodyMatches message m
        || decide ((nowMs : Int) - (m.timestamp : Int) * 1000 < 5000))

/-- A client that is unready at tick 0 and ready from tick 1 on (readiness
arrives 500ms in, well within the 20-attempt ceiling). -/
def tickOneClient : GwClient :=
  { info := fun k => decide (1 ≤ k), chats := [] }

/-- A client that is ready from the start, with no conversations. -/
def alwaysReadyClient : GwClient :=
  { info := fun _ => true, chats := [] }

/-- A fixed locale/clock environment for closed instances. -/
def zeroTimeEnv : TimeEnv :=
  { nowMs := 0, fmtTimeOfDay := fun _ => "", fmtWeekday := fun _ => "",
    fmtMonthDay := fun _ => "" }

/-- Per-conversation sub-fetches that all fail. -/
def allFailFetch : ChatFetchEnv :=
  { contact := .error (), profilePic := .error (), lastMsgs := .error (),
    media := .error () }

/-- An own-authored message 3 seconds old (clock at 100000ms) whose body
does not match the sent text "hello". -/
def c4MsgA : WaMsg :=
  { idSer := "MSG_A", body := some "xyz", caption := none, timestamp := 97,
    fromMe := true, mtype := "chat", ack := 1, hasMedia := false }

/-- An own-authored message 10 seconds old (clock at 100000ms) whose body
exactly matches the sent text "hello". -/
def c4MsgB : WaMsg :=
  { idSer := "MSG_B", body := some "hello", caption := none, timestamp := 90,
    fromMe := true, mtype := "chat", ack := 1, hasMedia := false }

/-- A send rejection carrying the benign null-field-access pattern. -/
def c4SendErr : JsError :=
  { message := "Evaluation failed: TypeError: Cannot read properties of undefined (reading markedUnread)" }

/-- A mid-handshake registry state with no pending single-flight marker:
the client is stored and unready, status is `initializing` (reachable once
a fresh `initializeWhatsApp` has settled — clearing its pending entry —
while the transport has not yet emitted any lifecycle event), credentials
exist on disk, and the freshly created replacement client would connect
within restore's bounded wait. -/
def c5CexEnv : RestoreEnv :=
  { snap := { active := true, activeReady := false, qr := none,
              status := some .initializing, pendingOp := none },
    readyAfterWait := false, hasFiles := true, connectRes := .ok (),
    newReadyAfterWait := true }

/-! ## Supporting lemmas -/

/-- The polling loop never performs more than 20 sleeps when started within
its guard. -/
theorem pollFuel_le (info : Nat → Bool) (n : Nat) :
    ∀ a : Nat, a ≤ 20 → pollFuel info a n ≤ 20 := by
  induction n with
  | zero => intro a ha; simpa [pollFuel] using ha
  | succ n ih =>
      intro a ha
      by_cases h : a < 20
      · by_cases hi : info a
        · simpa [pollFuel, h, hi] using ha
        · simpa [pollFuel, h, hi] using ih (a + 1) (by omega)
      · simpa [pollFuel, h] using ha

/-- If readiness arrives at some tick within the loop's reach, the loop
stops at a tick where `info` is true. -/
theorem pollFuel_reaches (info : Nat → Bool) (n : Nat) :
    ∀ a : Nat, a ≤ 20 → 20 ≤ a + n →
      (∃ k, a ≤ k ∧ k ≤ 20 ∧ info k = true) →
      info (pollFuel info a n) = true := by
  induction n with
  | zero =>
      intro a ha hn hk
      obtain ⟨k, hak, hk20, hik⟩ := hk
      have : a = 20 := by omega
      subst this
      have : k = 20 := by omega
      subst this
      simpa [pollFuel] using hik
  | succ n ih =>
      intro a ha hn hk
      by_cases h : a < 20
      · by_cases hi : info a
        · simp [pollFuel, h, hi]
        · obtain ⟨k, hak, hk20, hik⟩ := hk
          have hka : k ≠ a := by
            intro he; rw [he] at hik; simp [hik] at hi
          have : a + 1 ≤ k := by omega
          simpa [pollFuel, h, hi] using
            ih (a + 1) (by omega) (by omega) ⟨k, this, hk20, hik⟩
      · have ha20 : a = 20 := by omega
        subst ha20
        obtain ⟨k, hak, hk20, hik⟩ := hk
        have : k = 20 := by omega
        subst this
        simpa [pollFuel] using hik

/-- The readiness guard's sleep count is bounded by the 20-attempt
ceiling. -/
theorem waitForReady_fst_le (info : Nat → Bool) :
    (waitForReady info).1 ≤ 20 := by
  by_cases h : info 0
  · simp [waitForReady, h]
  · simp [waitForReady, h]
    exact pollFuel_le info 20 0 (by omega)

/-- The readiness guard fails exactly when the client is unready at every
check within the ceiling (ticks 0 through 20). -/
theorem waitForReady_false_iff (info : Nat → Bool) :
    (waitForReady info).2 = false ↔ ∀ k, k ≤ 20 → info k = false := by
  constructor
  · intro h k hk
    by_contra hik
    have hik' : info k = true := by
      cases hinfo : info k
      · exact absurd hinfo hik
      · rfl
    by_cases h0 : info 0
    · simp [waitForReady, h0] at h
    · have := pollFuel_reaches info 20 0 (by omega) (by omega)
        ⟨k, by omega, hk, hik'⟩
      simp [waitForReady, h0] at h
      rw [h] at this
      cases this
  · intro h
    by_cases h0 : info 0
    · have := h 0 (by omega)
      rw [h0] at this
      cases this
    · have hle := pollFuel_le info 20 0 (by omega)
      simp [waitForReady, h0]
      exact h _ hle

/-- Each handler preserves `QrStatusInv`. -/
theorem applyEvent_inv (st : LifeState) (e : WaEvent) (h : QrStatusInv st) :
    QrStatusInv (applyEvent st e) := by
  obtain ⟨h1, h2⟩ := h
  cases e with
  | qr genOk payload =>
      cases genOk
      · exact ⟨h1, h2⟩
      · exact ⟨fun _ => by simp [applyEvent], fun _ => Or.inl rfl⟩
  | ready => exact ⟨fun hc => by simp [applyEvent] at hc, fun hq => by
      simp [applyEvent] at hq⟩
  | authenticated => exact ⟨fun hc => by simp [applyEvent] at hc,
      fun _ => Or.inr rfl⟩
  | auth_failure => exact ⟨fun hc => by simp [applyEvent] at hc,
      fun hq => by simp [applyEvent] at hq⟩
  | disconnected => exact ⟨fun hc => by simp [applyEvent] at hc,
      fun hq => by simp [applyEvent] at hq⟩

/-- `QrStatusInv` holds along any event fold. -/
theorem foldl_inv (evs : List WaEvent) :
    ∀ st : LifeState, QrStatusInv st → QrStatusInv (evs.foldl applyEvent st) := by
  induction evs with
  | nil => intro st h; simpa using h
  | cons e rest ih =>
      intro st h
      simpa [List.foldl] using ih (applyEvent st e) (applyEvent_inv st e h)

/-- `verifyScan` returns the id of the first message satisfying
`qualifiesRecent`, and nothing when none does. -/
theorem verifyScan_eq_find (message : String) (nowMs : Nat)
    (msgs : List WaMsg) :
    verifyScan message nowMs msgs
      = (msgs.find? (qualifiesRecent message nowMs)).map (fun m => m.idSer) := by
  induction msgs with
  | nil => simp [verifyScan]
  | cons m rest ih =>
      by_cases hf : m.fromMe
      · by_cases h15 : ((nowMs : Int) - (m.timestamp : Int) * 1000 < 15000)
        · by_cases hb : msgBodyMatches message m
          · simp [verifyScan, hf, h15, hb, List.find?, qualifiesRecent]
          · by_cases h5 : ((nowMs : Int) - (m.timestamp : Int) * 1000 < 5000)
            · simp [verifyScan, hf, h15, hb, h5, List.find?, qualifiesRecent]
            · simpa [verifyScan, hf, h15, hb, h5, List.find?, qualifiesRecent]
                using ih
        · simpa [verifyScan, hf, h15, List.find?, qualifiesRecent] using ih
      · simpa [verifyScan, hf, List.find?, qualifiesRecent] using ih

/-! ## Claim theorems -/

/-- C1 (counterexample): two `initializeWhatsApp` calls in rapid
succession, the second arriving while the first is suspended at
`client.initialize()` — i.e. before the first completes — do NOT resolve to
the identical outcome: the first resolves to the fresh-initialization
result, the second returns the immediate already-initializing result
(lines 208-216) without going through the stored pending operation, and the
two results differ (in their `message` field). -/
theorem c1_counterexample :
    runTwoInit .atConnectWait (.ok ())
      = (.ok initOkRes, .ok alreadyInitializingRes, 1)
    ∧ initOkRes ≠ alreadyInitializingRes := by
  decide

/-- C1 (amended): in every interleaving of two rapid `initializeWhatsApp`
calls for the same user, exactly one underlying client is created; if the
second call arrives before the first stores the client handle, both callers
observe the identical settled outcome via the stored pending operation;
if it arrives after the handle is stored (but before completion), the
second caller gets the immediate already-initializing result, whose
`success` and `connected` fields agree with the first caller's eventual
result whenever both fulfil. -/
theorem c1_two_calls_amended (a : Arrival) (c : Except JsError Unit) :
    (runTwoInit a c).2.2 = 1
    ∧ (a = .atMkdirWait → (runTwoInit a c).1 = (runTwoInit a c).2.1)
    ∧ (a = .atConnectWait →
        (runTwoInit a c).2.1 = .ok alreadyInitializingRes)
    ∧ (∀ r1 r2 : OpResult,
        (runTwoInit a c).1 = .ok r1 → (runTwoInit a c).2.1 = .ok r2 →
        r1.success = r2.success ∧ r1.connected = r2.connected) := by
  cases a <;> cases c <;>
    simp_all [runTwoInit, initializeWhatsApp, initEarlyCheck, emptySnap,
      snapDuringMkdir, snapDuringConnect, initOkRes, alreadyInitializingRes]

/-- C1 witness: at the coalescing schedule point both callers observe the
same outcome, and at the late schedule point exactly one client was
created. -/
theorem c1_two_calls_amended_witness :
    (runTwoInit .atMkdirWait (.ok ())).1 = (runTwoInit .atMkdirWait (.ok ())).2.1
    ∧ (runTwoInit .atConnectWait (.ok ())).2.2 = 1 :=
  ⟨(c1_two_calls_amended .atMkdirWait (.ok ())).2.1 rfl,
   (c1_two_calls_amended .atConnectWait (.ok ())).1⟩

/-- C2 (counterexample): after the reachable event sequence "QR issued,
then authenticated", the stored pairing artifact is still present while the
status is `authenticated`, not `qr_ready` — so the artifact is NOT cleared
on the transition to `authenticated`, and artifact-present-iff-`qr_ready`
fails at this reachable state. -/
theorem c2_counterexample :
    (runEvents [.qr true "QR", .authenticated]).qr = some "QR"
    ∧ (runEvents [.qr true "QR", .authenticated]).status = .authenticated
    ∧ (runEvents [.qr true "QR", .authenticated]).status ≠ .qr_ready := by
  decide

/-- C2 (amended): in every state reachable by lifecycle events from a fresh
`initializeWhatsApp` session, the pairing artifact is present whenever the
status is `qr_ready`, and artifact presence implies the status is
`qr_ready` OR `authenticated`; the artifact is cleared by the `ready`,
`auth_failure` and `disconnected` handlers but not by the `authenticated`
handler. -/
theorem c2_qr_artifact_amended (evs : List WaEvent) :
    ((runEvents evs).status = .qr_ready → (runEvents evs).qr ≠ none)
    ∧ ((runEvents evs).qr ≠ none →
        (runEvents evs).status = .qr_ready
          ∨ (runEvents evs).status = .authenticated)
    ∧ (∀ st : LifeState, (applyEvent st .ready).qr = none
        ∧ (applyEvent st .auth_failure).qr = none
        ∧ (applyEvent st .disconnected).qr = none) := by
  have hinv : QrStatusInv (runEvents evs) :=
    foldl_inv evs initLifeState (by constructor <;> simp [initLifeState])
  exact ⟨hinv.1, hinv.2, fun st => by simp [applyEvent]⟩

/-- C2 witness: after a QR event the status is `qr_ready` and the artifact
is indeed present. -/
theorem c2_qr_artifact_amended_witness :
    (runEvents [.qr true "QR"]).qr ≠ none :=
  (c2_qr_artifact_amended [.qr true "QR"]).1 (by decide)

/-- C5 (counterexample): at a mid-handshake state (client stored and not
ready, status `initializing`, still not ready after the 2-second re-check)
with no pending single-flight marker and credentials on disk, `restore`
does not report a pending not-connected result: it falls through the
credential check, creates a SECOND client for the user, and (here) reports
`connected: true`. -/
theorem c5_counterexample :
    c5CexEnv.snap.active = true
    ∧ c5CexEnv.snap.activeReady = false
    ∧ c5CexEnv.snap.status = some .initializing
    ∧ c5CexEnv.readyAfterWait = false
    ∧ (restoreWhatsAppSession c5CexEnv).created = 1
    ∧ (restoreWhatsAppSession c5CexEnv).result = .ok restoredOkRes
    ∧ restoredOkRes.connected = true := by
  decide

/-- C5 (amended): for a mid-handshake session, `restore` waits the bounded
2-second interval and re-checks readiness; if ready it reports connected
without creating a client; if still not ready it does not block
indefinitely (every path waits at most 4000ms in this call) and — whenever
a pending single-flight operation exists — awaits it and returns its
outcome, creating no client.  The duplicate-handshake guard is the pending
marker, not the stored handle: with no marker the call proceeds to the
credential check and may create a fresh client. -/
theorem c5_midhandshake_amended (env : RestoreEnv)
    (hact : env.snap.active = true) (hrdy : env.snap.activeReady = false)
    (hst : env.snap.status = some .initializing
        ∨ env.snap.status = some .restoring) :
    (env.readyAfterWait = true →
      restoreWhatsAppSession env
        = { result := .ok restoreMidConnectedRes, created := 0,
            waitedMs := 2000, final := env.snap })
    ∧ (env.readyAfterWait = false →
        (restoreWhatsAppSession env).waitedMs ≤ 4000)
    ∧ (∀ out, env.readyAfterWait = false → env.snap.pendingOp = some out →
        restoreWhatsAppSession env
          = { result := out, created := 0, waitedMs := 2000,
              final := { env.snap with pendingOp := none } }) := by
  have hst' : env.snap.status = some .restoring
      ∨ env.snap.status = some .initializing := hst.symm
  refine ⟨?_, ?_, ?_⟩
  · intro hw
    simp [restoreWhatsAppSession, hact, hrdy, hst', hw]
  · intro hw
    simp only [restoreWhatsAppSession, hact, hrdy, hst', hw]
    simp only [if_true, if_false, Bool.false_eq_true, reduceIte]
    unfold restoreTail
    rcases hp : env.snap.pendingOp with _ | out
    · rcases hf : env.hasFiles with _ | _
      · simp [hf]
      · rcases hc : env.connectRes with e | u
        · simp [hf, hc]
        · rcases hn : env.newReadyAfterWait with _ | _ <;> simp [hf, hc, hn]
    · simp
  · intro out hw hp
    simp [restoreWhatsAppSession, restoreTail, hact, hrdy, hst', hw, hp]

/-- C5 witness: a concrete mid-handshake state with a stored pending
operation — restore waits 2 seconds and returns the pending operation's
outcome without creating a client. -/
theorem c5_midhandshake_amended_witness :
    restoreWhatsAppSession
        { snap := { active := true, activeReady := false, qr := none,
                    status := some .restoring,
                    pendingOp := some (.ok restoredPendingRes) },
          readyAfterWait := false, hasFiles := false, connectRes := .ok (),
          newReadyAfterWait := false }
      = { result := .ok restoredPendingRes, created := 0, waitedMs := 2000,
          final := { active := true, activeReady := false, qr := none,
                     status := some .restoring, pendingOp := none } } :=
  (c5_midhandshake_amended _ rfl rfl (Or.inr rfl)).2.2
    (.ok restoredPendingRes) rfl rfl

/-- C6: a fresh `initializeWhatsApp` (no session, no pending operation)
creates exactly one client, registers the lifecycle callbacks, starts the
connect sequence, and returns the not-connected pending result without
waiting for the handshake: its settled result, client count and wait time
are the same for EVERY sequence of lifecycle events delivered during the
connect suspension, while the handshake's progress is observable afterwards
through the stored status and artifact (here: a QR event leaves status
`qr_ready` with the artifact stored; a subsequent ready event leaves status
`connected`). -/
theorem c6_fresh_initialize (events : List WaEvent) (p : String) :
    (initializeWhatsApp
        { snap := emptySnap, connectRes := .ok (), events := events }).result
      = .ok initOkRes
    ∧ (initializeWhatsApp
        { snap := emptySnap, connectRes := .ok (), events := events }).created
      = 1
    ∧ (initializeWhatsApp
        { snap := emptySnap, connectRes := .ok (), events := events }).waitedMs
      = 0
    ∧ initOkRes.connected = false ∧ initOkRes.success = true
    ∧ (initializeWhatsApp
        { snap := emptySnap, connectRes := .ok (), events := [.qr true p] }).final.qr
      = some p
    ∧ (initializeWhatsApp
        { snap := emptySnap, connectRes := .ok (), events := [.qr true p] }).final.status
      = some .qr_ready
    ∧ (initializeWhatsApp
        { snap := emptySnap, connectRes := .ok (),
          events := [.qr true p, .ready] }).final.status
      = some .connected := by
  exact ⟨rfl, rfl, rfl, rfl, rfl, rfl, rfl, rfl⟩

/-- C7: `restore` for a user with no active client, no pending operation
and no on-disk credential files returns `hasSession: false`,
`connected: false`, creates no client, waits nothing, and leaves the
per-user registry entries exactly as they were. -/
theorem c7_restore_no_files (s : UserSnap) (rw : Bool)
    (cr : Except JsError Unit) (nrw : Bool)
    (hact : s.active = false) (hpend : s.pendingOp = none) :
    restoreWhatsAppSession
        { snap := s, readyAfterWait := rw, hasFiles := false,
          connectRes := cr, newReadyAfterWait := nrw }
      = { result := .ok noSessionRes, created := 0, waitedMs := 0,
          final := s }
    ∧ noSessionRes.connected = false
    ∧ noSessionRes.hasSession = some false
    ∧ noSessionRes.success = true := by
  refine ⟨?_, rfl, rfl, rfl⟩
  simp [restoreWhatsAppSession, restoreTail, hact, hpend]

/-- C7 witness: the empty registry state with no credential files. -/
theorem c7_restore_no_files_witness :
    restoreWhatsAppSession
        { snap := emptySnap, readyAfterWait := false, hasFiles := false,
          connectRes := .ok (), newReadyAfterWait := false }
      = { result := .ok noSessionRes, created := 0, waitedMs := 0,
          final := emptySnap }
    ∧ noSessionRes.connected = false
    ∧ noSessionRes.hasSession = some false
    ∧ noSessionRes.success = true :=
  c7_restore_no_files emptySnap false (.ok ()) false rfl rfl

/-- C8: every `initializeWhatsApp` / `restoreWhatsAppSession` execution
that stores a pending operation clears that entry effectively exactly once
— the finally-block delete; the extra delete in the outer catch on the
rejection path hits an already-absent entry — and the entry is absent once
the call settles, for both fulfilment and rejection of the connect
sequence; consequently neither coordinator leaves its user's pending entry
set when it entered with none. -/
theorem c8_pending_cleared_once (c : Except JsError Unit) (ienv : InitEnv)
    (renv : RestoreEnv) :
    replayPendingOps (initPendingMapOps c) false = (1, false)
    ∧ replayPendingOps (restorePendingMapOps c) false = (1, false)
    ∧ (ienv.snap.pendingOp = none →
        (initializeWhatsApp ienv).final.pendingOp = none)
    ∧ (renv.snap.pendingOp = none →
        (restoreWhatsAppSession renv).final.pendingOp = none) := by
  refine ⟨?_, ?_, ?_, ?_⟩
  · cases c <;> rfl
  · cases c <;> rfl
  · intro h
    rcases he : initEarlyCheck ienv.snap with _ | r
    · rcases hc : ienv.connectRes with e | u
      · simp [initializeWhatsApp, he, h, hc]
      · simp [initializeWhatsApp, he, h, hc]
    · simp [initializeWhatsApp, he, h]
  · intro h
    rcases hact : renv.snap.active with _ | _
    · simp only [restoreWhatsAppSession, hact]
      unfold restoreTail
      rcases hf : renv.hasFiles with _ | _
      · simp [h, hf]
      · rcases hc : renv.connectRes with e | u
        · simp [h, hf, hc]
        · rcases hn : renv.newReadyAfterWait with _ | _ <;> simp [h, hf, hc, hn]
    · rcases hrdy : renv.snap.activeReady with _ | _
      · by_cases hst : renv.snap.status = some .restoring
            ∨ renv.snap.status = some .initializing
        · rcases hw : renv.readyAfterWait with _ | _
          · simp only [restoreWhatsAppSession, hact, hrdy, hst, hw]
            unfold restoreTail
            rcases hf : renv.hasFiles with _ | _
            · simp [h, hf]
            · rcases hc : renv.connectRes with e | u
              · simp [h, hf, hc]
              · rcases hn : renv.newReadyAfterWait with _ | _ <;>
                  simp [h, hf, hc, hn]
          · simp [restoreWhatsAppSession, hact, hrdy, hst, hw, h]
        · simp only [restoreWhatsAppSession, hact, hrdy, hst]
          unfold restoreTail
          rcases hf : renv.hasFiles with _ | _
          · simp [h, hf]
          · rcases hc : renv.connectRes with e | u
            · simp [h, hf, hc]
            · rcases hn : renv.newReadyAfterWait with _ | _ <;>
                simp [h, hf, hc, hn]
      · simp [restoreWhatsAppSession, hact, hrdy, h]

/-- C8 witness: a fulfilled fresh initialization and an empty-state restore
both end with the pending entry absent. -/
theorem c8_pending_cleared_once_witness :
    (initializeWhatsApp
        { snap := emptySnap, connectRes := .ok (),
          events := [] }).final.pendingOp = none
    ∧ (restoreWhatsAppSession
        { snap := emptySnap, readyAfterWait := false, hasFiles := false,
          connectRes := .ok (),
          newReadyAfterWait := false }).final.pendingOp = none :=
  ⟨(c8_pending_cleared_once (.ok ())
      { snap := emptySnap, connectRes := .ok (), events := [] }
      { snap := emptySnap, readyAfterWait := false, hasFiles := false,
        connectRes := .ok (), newReadyAfterWait := false }).2.2.1 rfl,
   (c8_pending_cleared_once (.ok ())
      { snap := emptySnap, connectRes := .ok (), events := [] }
      { snap := emptySnap, readyAfterWait := false, hasFiles := false,
        connectRes := .ok (), newReadyAfterWait := false }).2.2.2 rfl⟩

/-- C10: once `disconnectWhatsApp` settles, every per-user registry entry
is removed — client handle, QR artifact, status and pending marker — and
this holds for every combination of `logout` / `destroy` settlements: their
rejections are swallowed by the inner try/catch blocks, the call settles
normally, and the cleanup deletes always run. -/
theorem c10_disconnect_cleanup (s : UserSnap)
    (logoutRes destroyRes : Except JsError Unit) :
    disconnectWhatsApp s logoutRes destroyRes = (.ok (), clearedSnap)
    ∧ clearedSnap.active = false ∧ clearedSnap.qr = none
    ∧ clearedSnap.status = none ∧ clearedSnap.pendingOp = none := by
  refine ⟨?_, rfl, rfl, rfl, rfl⟩
  rcases logoutRes with e | u <;> rcases destroyRes with e2 | u2 <;>
    rcases hact : s.active with _ | _ <;>
      simp [disconnectWhatsApp, swallowJsError, hact]

/-- C3 (counterexample): for a client that becomes ready one 500ms tick in
(well within the 20-attempt ceiling), `getChats`, `getChatCount` and
`getChatMessages` poll once and succeed — but `sendMessage` fails
immediately with its not-connected error after zero polling attempts, so
`sendMessage` does NOT poll readiness at 500ms intervals as claimed. -/
theorem c3_counterexample :
    tickOneClient.info 0 = false
    ∧ tickOneClient.info 1 = true
    ∧ getChats (some tickOneClient) zeroTimeEnv (fun _ => allFailFetch)
        = (1, .ok [])
    ∧ getChatCount (some tickOneClient) = (1, .ok 0)
    ∧ getChatMessages (some tickOneClient) zeroTimeEnv (.ok ()) (.ok [])
        = (1, .ok [])
    ∧ sendMessage (some tickOneClient) (.ok (some ())) "hello" (.ok "SENT")
        (.ok []) 0 "chat1" = .error .notConnected := by
  decide

/-- C3 (amended): `getChats`, `getChatCount` and `getChatMessages` poll
readiness at 500ms intervals for at most 20 attempts and fail with their
distinct not-ready error exactly when the client is unready at every check
within the ceiling; `sendMessage` instead checks readiness exactly once and
fails immediately with its distinct not-connected error whenever the client
is unready at that single check, performing no polling. -/
theorem c3_readiness_amended (cl : GwClient) (te : TimeEnv)
    (fetch : Nat → ChatFetchEnv) (chatLookup : Except JsError Unit)
    (fetchRes : Except JsError (List WaMsg))
    (chatById : Except JsError (Option Unit)) (message : String)
    (sendRes : Except JsError String)
    (recentFetch : Except JsError (List WaMsg)) (nowMs : Nat)
    (chatId : String) :
    (getChats (some cl) te fetch).1 ≤ 20
    ∧ ((getChats (some cl) te fetch).2 = .error .notReadyLong
        ↔ ∀ k, k ≤ 20 → cl.info k = false)
    ∧ (getChatCount (some cl)).1 ≤ 20
    ∧ ((getChatCount (some cl)).2 = .error .notReadyShort
        ↔ ∀ k, k ≤ 20 → cl.info k = false)
    ∧ (getChatMessages (some cl) te chatLookup fetchRes).1 ≤ 20
    ∧ ((getChatMessages (some cl) te chatLookup fetchRes).2
          = .error .notReadyLong
        ↔ ∀ k, k ≤ 20 → cl.info k = false)
    ∧ (sendMessage (some cl) chatById message sendRes recentFetch nowMs chatId
          = .error .notConnected
        ↔ cl.info 0 = false) := by
  have h20 := waitForReady_fst_le cl.info
  have hiff := waitForReady_false_iff cl.info
  have hnot : (waitForReady cl.info).2 = true →
      ¬ (∀ k, k ≤ 20 → cl.info k = false) := by
    intro hw hall
    rw [hiff.mpr hall] at hw
    cases hw
  refine ⟨?_, ?_, ?_, ?_, ?_, ?_, ?_⟩
  · by_cases hw : (waitForReady cl.info).2 <;> simpa [getChats, hw] using h20
  · by_cases hw : (waitForReady cl.info).2
    · simpa [getChats, hw] using hnot hw
    · have hw' : (waitForReady cl.info).2 = false := by simpa using hw
      simpa [getChats, hw'] using hiff.mp hw'
  · by_cases hw : (waitForReady cl.info).2 <;>
      simpa [getChatCount, hw] using h20
  · by_cases hw : (waitForReady cl.info).2
    · simpa [getChatCount, hw] using hnot hw
    · have hw' : (waitForReady cl.info).2 = false := by simpa using hw
      simpa [getChatCount, hw'] using hiff.mp hw'
  · by_cases hw : (waitForReady cl.info).2 <;>
      rcases chatLookup with e | u <;> rcases fetchRes with e2 | msgs <;>
        simpa [getChatMessages, hw] using h20
  · by_cases hw : (waitForReady cl.info).2
    · rcases chatLookup with e | u <;> rcases fetchRes with e2 | msgs <;>
        simpa [getChatMessages, hw] using hnot hw
    · have hw' : (waitForReady cl.info).2 = false := by simpa using hw
      simpa [getChatMessages, hw'] using hiff.mp hw'
  · rcases h0 : cl.info 0 with _ | _
    · simp [sendMessage, h0]
    · simp only [sendMessage, h0]
      rcases chatById with e | oc
      · simp
      · rcases oc with _ | u
        · simp
        · rcases sendRes with se | sid
          · by_cases hb : benignSendError se.message
            · rcases recentFetch with e2 | msgs
              · simp [hb]
              · rcases hv : verifyScan message nowMs msgs with _ | vid <;>
                  simp [hb, hv]
            · simp [hb]
          · simp

/-- C4 (counterexample): the benign-error verification scan is a single
pass in fetch order, not a two-tier search.  Here the re-fetched list holds
an own-authored message from the last 15 seconds whose body exactly matches
the sent text ("MSG_B"), yet `sendMessage` returns the id of the earlier
non-matching own message "MSG_A" (taken by the under-5-seconds rule), so
the claimed "matching message's id, or failing that a very recent
message's id" priority does not hold. -/
theorem c4_counterexample :
    benignSendError c4SendErr.message = true
    ∧ c4MsgB.fromMe = true
    ∧ ((100000 : Int) - (c4MsgB.timestamp : Int) * 1000 < 15000)
    ∧ msgBodyMatches "hello" c4MsgB = true
    ∧ msgBodyMatches "hello" c4MsgA = false
    ∧ ((100000 : Int) - (c4MsgA.timestamp : Int) * 1000 < 5000)
    ∧ sendMessage (some alwaysReadyClient) (.ok (some ())) "hello"
        (.error c4SendErr) (.ok [c4MsgA, c4MsgB]) 100000 "chat1"
        = .ok "MSG_A"
    ∧ ("MSG_A" : String) ≠ "MSG_B" := by
  decide

/-- C4 (amended): on a ready client, a send rejection whose message matches
the benign pattern makes `sendMessage` wait, re-fetch the recent messages
and return the id of the FIRST message in fetch order that is own-authored,
less than 15 seconds old, and either body-matches the sent text or is less
than 5 seconds old; if no message qualifies, or the verification re-fetch
itself fails, it returns the locally generated synthetic id and does not
raise.  A send rejection not matching the pattern is propagated unchanged,
and a fulfilled send returns the transport-assigned id. -/
theorem c4_send_fallback_amended (cl : GwClient) (message : String)
    (sendErr : JsError) (msgs : List WaMsg) (nowMs : Nat) (chatId : String)
    (hready : cl.info 0 = true) :
    (benignSendError sendErr.message = true →
      sendMessage (some cl) (.ok (some ())) message (.error sendErr)
          (.ok msgs) nowMs chatId
        = .ok (((msgs.find? (qualifiesRecent message nowMs)).map
              (fun m => m.idSer)).getD ("temp_" ++ toString nowMs)))
    ∧ (∀ e : JsError, benignSendError sendErr.message = true →
        sendMessage (some cl) (.ok (some ())) message (.error sendErr)
            (.error e) nowMs chatId = .ok ("temp_" ++ toString nowMs))
    ∧ (benignSendError sendErr.message = false →
        sendMessage (some cl) (.ok (some ())) message (.error sendErr)
            (.ok msgs) nowMs chatId = .error (.js sendErr))
    ∧ (∀ sid : String,
        sendMessage (some cl) (.ok (some ())) message (.ok sid) (.ok msgs)
            nowMs chatId = .ok sid) := by
  refine ⟨?_, ?_, ?_, ?_⟩
  · intro hb
    simp only [sendMessage, hready, Bool.not_eq_true, Bool.true_eq_false,
      reduceIte, hb, verifyScan_eq_find]
    rcases hf : msgs.find? (qualifiesRecent message nowMs) with _ | m <;>
      simp [hf]
  · intro e hb
    simp [sendMessage, hready, hb]
  · intro hb
    simp [sendMessage, hready, hb]
  · intro sid
    simp [sendMessage, hready]

/-- C4 witness: a benign rejection with an empty verification re-fetch
yields the synthetic id without raising. -/
theorem c4_send_fallback_amended_witness :
    sendMessage (some alwaysReadyClient) (.ok (some ())) "hi"
        (.error { message := "markedUnread" }) (.ok []) 0 "chat1"
      = .ok (((List.find? (qualifiesRecent "hi" 0) []).map
            (fun m => m.idSer)).getD ("temp_" ++ toString 0)) :=
  (c4_send_fallback_amended alwaysReadyClient "hi" { message := "markedUnread" }
      [] 0 "chat1" rfl).1 (by decide)

/-- C9: `getChats` on a ready session with zero conversations returns the
empty sequence (not an error); on any ready session it returns (a
reordering that keeps every entry of) the per-conversation formatted list;
each entry is computed from its own conversation and its own sub-fetches
only, so changing the sub-fetch outcomes of one conversation cannot affect
any other entry; and an entry all of whose sub-fetches fail degrades to the
minimal fields (basic chat identity, empty message/timestamp fields — its
unread count keeps the raw chat value, which the outer-catch minimal entry
would zero). -/
theorem c9_list_degradation (te : TimeEnv) (cl : GwClient)
    (fetch fetch' : Nat → ChatFetchEnv) (inf : Nat → Bool)
    (chats : List WaChat) (chat : WaChat) (j i : Nat) :
    (inf 0 = true →
      getChats (some { info := inf, chats := [] }) te fetch = (0, .ok []))
    ∧ ((∃ k, k ≤ 20 ∧ cl.info k = true) →
        ∃ l, (getChats (some cl) te fetch).2 = .ok l
          ∧ List.Perm l (mappedChatEntries te cl.chats fetch))
    ∧ ((∀ i2, i2 ≠ j → fetch i2 = fetch' i2) → i ≠ j →
        (mappedChatEntries te chats fetch)[i]?
          = (mappedChatEntries te chats fetch')[i]?)
    ∧ formatChat te chat allFailFetch
        = { minimalChatEntry chat with unread := chat.unreadCount.getD 0 } := by
  refine ⟨?_, ?_, ?_, ?_⟩
  · intro h0
    simp [getChats, waitForReady, h0, mappedChatEntries, orderChatEntries]
  · intro hex
    have hsnd : (waitForReady cl.info).2 = true := by
      by_contra hw
      have hw' : (waitForReady cl.info).2 = false := by simpa using hw
      obtain ⟨k, hk, hik⟩ := hex
      have := (waitForReady_false_iff cl.info).mp hw' k hk
      rw [hik] at this
      cases this
    refine ⟨orderChatEntries (mappedChatEntries te cl.chats fetch),
      by simp [getChats, hsnd], ?_⟩
    have hfe : (mappedChatEntries te cl.chats fetch).filter
          (fun e => e.timestamp = "")
        = (mappedChatEntries te cl.chats fetch).filter
          (fun e => !(decide (e.timestamp ≠ ""))) := by
      apply List.filter_congr
      intro x _
      simp [decide_not]
    unfold orderChatEntries
    rw [hfe]
    exact List.filter_append_perm _ _
  · intro hagree hij
    simp only [mappedChatEntries, List.getElem?_map, List.getElem?_enum,
      Option.map_map]
    rcases chats[i]? with _ | c
    · rfl
    · simp [Function.comp, hagree i hij]
  · rfl

/-- C9 witness: a ready client with zero conversations yields the empty
list, and a client becoming ready within the ceiling yields a list that is
a permutation of the per-conversation formatted entries. -/
theorem c9_list_degradation_witness :
    getChats (some { info := fun _ => true, chats := [] }) zeroTimeEnv
        (fun _ => allFailFetch) = (0, .ok [])
    ∧ ∃ l, (getChats (some tickOneClient) zeroTimeEnv
          (fun _ => allFailFetch)).2 = .ok l
        ∧ List.Perm l (mappedChatEntries zeroTimeEnv tickOneClient.chats
            (fun _ => allFailFetch)) :=
  ⟨(c9_list_degradation zeroTimeEnv tickOneClient (fun _ => allFailFetch)
      (fun _ => allFailFetch) (fun _ => true) []
      { idSer := "", idUser := none, name := none, unreadCount := none,
        isGroup := none, isReadOnly := none } 0 0).1 rfl,
   (c9_list_degradation zeroTimeEnv tickOneClient (fun _ => allFailFetch)
      (fun _ => allFailFetch) (fun _ => true) []
      { idSer := "", idUser := none, name := none, unreadCount := none,
        isGroup := none, isReadOnly := none } 0 0).2.1
     ⟨1, by decide, by decide⟩⟩

/-- C3 witness: the bounds and characterizations instantiated at the
client that becomes ready after one tick. -/
theorem c3_readiness_amended_witness :
    (getChats (some tickOneClient) zeroTimeEnv (fun _ => allFailFetch)).1 ≤ 20
    ∧ ((sendMessage (some tickOneClient) (.ok (some ())) "hello" (.ok "SENT")
          (.ok []) 0 "chat1" = .error .notConnected)
        ↔ tickOneClient.info 0 = false) :=
  ⟨(c3_readiness_amended tickOneClient zeroTimeEnv (fun _ => allFailFetch)
      (.ok ()) (.ok []) (.ok (some ())) "hello" (.ok "SENT") (.ok []) 0
      "chat1").1,
   (c3_readiness_amended tickOneClient zeroTimeEnv (fun _ => allFailFetch)
      (.ok ()) (.ok []) (.ok (some ())) "hello" (.ok "SENT") (.ok []) 0
      "chat1").2.2.2.2.2.2⟩
